import Mathlib

/-!
Shallow embedding of the `rocket-session-store` crate (src/lib.rs,
src/memory.rs, src/redis.rs) and proofs about its session-management core.

Modelling conventions:
* `Instant` (a monotonic clock reading) is a `Nat`, measured in nanoseconds.
* Rust's `std::time::Duration` is a pair `(secs, nanos)`; the library
  maintains `nanos < 10^9`, which we carry as a hypothesis where needed.
* `SessionError` (src/lib.rs:334) is a unit struct; `SessionResult T` is
  `Result<T, SessionError>`, embedded as `Except`.
* The `HashMap<String, Mutex<MemoryStoreFrame<T>>>` of `MemoryStore`
  (src/memory.rs:29) is embedded as an association list with at most one
  binding per key, observed only through `mapLookup`.
* Async `.await` points are sequentialised: every operation takes the
  current instant `now` explicitly where the source calls `Instant::now()`.
-/

/-- Embedding of Rust `std::time::Duration`: whole seconds plus a
sub-second nanosecond part (the library keeps `nanos < 10^9`). -/
structure Duration where
  secs : Nat
  nanos : Nat
  deriving DecidableEq, Repr

/-- Total length of a `Duration` in nanoseconds. -/
def Duration.toNanos (d : Duration) : Nat :=
  d.secs * 1000000000 + d.nanos

/-- Embedding of Rust `Duration::as_secs`: the whole-second count,
discarding the sub-second part. -/
def Duration.asSecs (d : Duration) : Nat :=
  d.secs

/-- Embedding of `SessionError` (src/lib.rs:334), a unit struct. -/
inductive SessionError where
  | mk
  deriving DecidableEq, Repr

/-- Embedding of `SessionResult<T> = Result<T, SessionError>` (src/lib.rs:326). -/
abbrev SessionResult (T : Type) := Except SessionError T

/-- Lookup in an association list, the embedding of `HashMap::get`. -/
def mapLookup {A : Type} : List (String × A) → String → Option A
  | [], _ => none
  | (k, v) :: rest, key => if k = key then some v else mapLookup rest key

/-- Removal from an association list, the embedding of `HashMap::remove`
(dropping every binding of the key). -/
def mapRemove {A : Type} : List (String × A) → String → List (String × A)
  | [], _ => []
  | (k, v) :: rest, key =>
    if k = key then mapRemove rest key else (k, v) :: mapRemove rest key

/-- Insertion into an association list, the embedding of `HashMap::insert`:
the new binding replaces any existing binding of the key. -/
def mapInsert {A : Type} (m : List (String × A)) (key : String) (v : A) :
    List (String × A) :=
  (key, v) :: mapRemove m key

/-- Embedding of `MemoryStoreFrame<T>` (src/memory.rs:32): a stored value
together with its absolute expiry instant. -/
structure MemoryStoreFrame (T : Type) where
  value : T
  expiry : Nat
  deriving DecidableEq, Repr

/-- Embedding of the state of `MemoryStore<T>` (src/memory.rs:28): the
key-to-frame map. -/
abbrev MemoryStore (T : Type) := List (String × MemoryStoreFrame T)

/-- Embedding of `MemoryStore::get` (src/memory.rs:58-71): look the key up;
if the frame is present and `expiry.checked_duration_since(now)` is `Some`
(that is, `now ≤ expiry`), return the cloned value, else return `None`.
The map itself is not mutated. Always `Ok`. -/
def MemoryStore.get {T : Type} (st : MemoryStore T) (id : String) (now : Nat) :
    SessionResult (Option T) :=
  match mapLookup st id with
  | some frame =>
    if now ≤ frame.expiry then Except.ok (some frame.value) else Except.ok none
  | none => Except.ok none

/-- Embedding of `MemoryStore::set` (src/memory.rs:73-82): unconditionally
insert a fresh frame with expiry `now + duration`, replacing any existing
binding. Always `Ok`; returns the result paired with the new map. -/
def MemoryStore.set {T : Type} (st : MemoryStore T) (id : String) (value : T)
    (dur : Duration) (now : Nat) : SessionResult Unit × MemoryStore T :=
  (Except.ok (), mapInsert st id ⟨value, now + dur.toNanos⟩)

/-- Embedding of `MemoryStore::touch` (src/memory.rs:84-91): if a frame is
present (expired or not), overwrite its expiry with `now + duration`,
keeping the value; if absent, leave the map unchanged. Always `Ok`. -/
def MemoryStore.touch {T : Type} (st : MemoryStore T) (id : String)
    (dur : Duration) (now : Nat) : SessionResult Unit × MemoryStore T :=
  match mapLookup st id with
  | some frame => (Except.ok (), mapInsert st id ⟨frame.value, now + dur.toNanos⟩)
  | none => (Except.ok (), st)

/-- Embedding of `MemoryStore::remove` (src/memory.rs:93-98): delete the
binding if present. Always `Ok`. -/
def MemoryStore.remove {T : Type} (st : MemoryStore T) (id : String) :
    SessionResult Unit × MemoryStore T :=
  (Except.ok (), mapRemove st id)

theorem mapLookup_mapRemove_self {A : Type} (m : List (String × A)) (k : String) :
    mapLookup (mapRemove m k) k = none := by
  induction m with
  | nil => rfl
  | cons hd tl ih =>
    obtain ⟨k', v⟩ := hd
    by_cases h : k' = k
    · simp [mapRemove, h, ih]
    · simp [mapRemove, mapLookup, h, ih]

theorem mapLookup_mapRemove_ne {A : Type} (m : List (String × A)) (k k' : String)
    (h : k' ≠ k) : mapLookup (mapRemove m k) k' = mapLookup m k' := by
  induction m with
  | nil => rfl
  | cons hd tl ih =>
    obtain ⟨k0, v⟩ := hd
    have hkk' : k ≠ k' := fun hc => h hc.symm
    by_cases hk : k0 = k
    · simp [mapRemove, mapLookup, hk, hkk', ih]
    · by_cases hk' : k0 = k'
      · simp [mapRemove, mapLookup, hk, hk', h]
      · simp [mapRemove, mapLookup, hk, hk', ih]

theorem mapLookup_mapInsert_self {A : Type} (m : List (String × A)) (k : String)
    (v : A) : mapLookup (mapInsert m k v) k = some v := by
  simp [mapInsert, mapLookup]

theorem mapLookup_mapInsert_ne {A : Type} (m : List (String × A)) (k k' : String)
    (v : A) (h : k' ≠ k) :
    mapLookup (mapInsert m k v) k' = mapLookup m k' := by
  have : k ≠ k' := fun hc => h hc.symm
  simp [mapInsert, mapLookup, this, mapLookup_mapRemove_ne m k k' h]

/-- Claim C7: for the in-memory store, `set(k, v, d)` followed immediately
(at the same instant) by `get(k)` returns `v`, and `set` unconditionally
replaces any existing entry for `k` with a frame whose expiry is
`now + d`. Proved for every map, key, value, duration and instant. -/
theorem c7_memory_set_then_get {T : Type} (st : MemoryStore T) (k : String)
    (v : T) (d : Duration) (now : Nat) :
    (MemoryStore.set st k v d now).1 = Except.ok () ∧
    MemoryStore.get (MemoryStore.set st k v d now).2 k now =
      Except.ok (some v) ∧
    mapLookup (MemoryStore.set st k v d now).2 k =
      some ⟨v, now + d.toNanos⟩ := by
  refine ⟨rfl, ?_, ?_⟩
  · simp [MemoryStore.set, MemoryStore.get, mapLookup_mapInsert_self,
      Nat.le_add_right]
  · simp [MemoryStore.set, mapLookup_mapInsert_self]

/-- Claim C8: in-memory `touch(k, d)`: when an entry for `k` exists its
expiry becomes `now + d` (value kept) and the call succeeds; when no entry
exists the call succeeds and the store is unchanged. -/
theorem c8_memory_touch {T : Type} (st : MemoryStore T) (k : String)
    (d : Duration) (now : Nat) :
    (∀ frame : MemoryStoreFrame T, mapLookup st k = some frame →
      (MemoryStore.touch st k d now).1 = Except.ok () ∧
      mapLookup (MemoryStore.touch st k d now).2 k =
        some ⟨frame.value, now + d.toNanos⟩) ∧
    (mapLookup st k = none →
      MemoryStore.touch st k d now = (Except.ok (), st)) := by
  constructor
  · intro frame hl
    simp [MemoryStore.touch, hl, mapLookup_mapInsert_self]
  · intro hl
    simp [MemoryStore.touch, hl]

/-- Claim C9: an expired entry stays resident in the in-memory map:
`get` reports it absent, yet `touch` resets its expiry to `now + d`, after
which `get` returns the old value again — `touch` does not distinguish
expired entries from live ones. -/
theorem c9_touch_revives_expired {T : Type} (st : MemoryStore T) (k : String)
    (v : T) (e : Nat) (d : Duration) (now : Nat)
    (hl : mapLookup st k = some ⟨v, e⟩) (he : e < now) :
    MemoryStore.get st k now = Except.ok none ∧
    mapLookup (MemoryStore.touch st k d now).2 k = some ⟨v, now + d.toNanos⟩ ∧
    MemoryStore.get (MemoryStore.touch st k d now).2 k now =
      Except.ok (some v) := by
  have hnotle : ¬ now ≤ e := Nat.not_le_of_lt he
  refine ⟨?_, ?_, ?_⟩
  · simp [MemoryStore.get, hl, hnotle]
  · simp [MemoryStore.touch, hl, mapLookup_mapInsert_self]
  · simp [MemoryStore.touch, hl, MemoryStore.get, mapLookup_mapInsert_self,
      Nat.le_add_right]

/-- Witness for C8 at a concrete store. -/
theorem c8_memory_touch_witness :
    ((MemoryStore.touch [("k", ⟨(5 : Nat), 10⟩)] "k" ⟨2, 0⟩ 7).1 = Except.ok () ∧
      mapLookup (MemoryStore.touch [("k", ⟨(5 : Nat), 10⟩)] "k" ⟨2, 0⟩ 7).2 "k" =
        some ⟨5, 7 + Duration.toNanos ⟨2, 0⟩⟩) ∧
    MemoryStore.touch ([] : MemoryStore Nat) "k" ⟨2, 0⟩ 7 = (Except.ok (), []) := by
  have h := c8_memory_touch [("k", ⟨(5 : Nat), 10⟩)] "k" ⟨2, 0⟩ 7
  have h2 := c8_memory_touch ([] : MemoryStore Nat) "k" ⟨2, 0⟩ 7
  exact ⟨h.1 ⟨5, 10⟩ rfl, h2.2 rfl⟩

/-- Witness for C9 at a concrete expired entry. -/
theorem c9_touch_revives_expired_witness :
    MemoryStore.get [("k", ⟨(5 : Nat), 10⟩)] "k" 11 = Except.ok none ∧
    mapLookup (MemoryStore.touch [("k", ⟨(5 : Nat), 10⟩)] "k" ⟨3, 0⟩ 11).2 "k" =
      some ⟨5, 11 + Duration.toNanos ⟨3, 0⟩⟩ ∧
    MemoryStore.get (MemoryStore.touch [("k", ⟨(5 : Nat), 10⟩)] "k" ⟨3, 0⟩ 11).2
      "k" 11 = Except.ok (some 5) :=
  c9_touch_revives_expired [("k", ⟨(5 : Nat), 10⟩)] "k" 5 10 ⟨3, 0⟩ 11 rfl
    (by decide)

/-- Failure injection for the store backing a `Session`. The `Store` trait
(src/lib.rs:60-73) allows every operation to fail with `SessionError`
(for example a dropped database connection); `MemoryStore` itself never
fails. A flag set to `true` makes the corresponding operation of the
regeneration sequence return `Err(SessionError)` without touching the
store, modelling a fallible backend whose state otherwise follows the
memory-store semantics. -/
structure StoreBehavior where
  getFails : Bool
  removeFails : Bool
  setFails : Bool
  deriving DecidableEq, Repr

/-- Embedding of the per-request state of `Session` (src/lib.rs:87-91):
the backing store's state, the current token, and the pending-new-token
slot `new_token : Arc<Mutex<Option<SessionID>>>`. -/
structure SessionState (T : Type) where
  store : MemoryStore T
  token : String
  newToken : Option String
  deriving DecidableEq, Repr

/-- Embedding of `Session::regenerate_token` (src/lib.rs:192-209), the
store calls resolved to memory-store semantics under the failure
injection `fb`. Mirrors the source's control flow: if the pending slot is
already filled, return `Ok` at once; otherwise `get` the current value,
`remove` the current token's entry, mint the fresh token, fill the slot,
and — only when a value was read — `set` it under the new token with the
full TTL. The `?` operator after each store call is an early error
return. `fresh` stands for the `new_id(ID_LENGTH)` random token. -/
def regenerateToken {T : Type} (fb : StoreBehavior) (fresh : String)
    (now : Nat) (dur : Duration) (s : SessionState T) :
    SessionResult Unit × SessionState T :=
  match s.newToken with
  | some _ => (Except.ok (), s)
  | none =>
    if fb.getFails then (Except.error SessionError.mk, s)
    else
      match MemoryStore.get s.store s.token now with
      | Except.error e => (Except.error e, s)
      | Except.ok sessionOpt =>
        if fb.removeFails then (Except.error SessionError.mk, s)
        else
          match sessionOpt with
          | some v =>
            if fb.setFails then
              (Except.error SessionError.mk,
                ⟨mapRemove s.store s.token, fresh, some fresh⟩)
            else
              (Except.ok (),
                ⟨mapInsert (mapRemove s.store s.token) fresh
                    ⟨v, now + dur.toNanos⟩,
                  fresh, some fresh⟩)
          | none =>
            (Except.ok (), ⟨mapRemove s.store s.token, fresh, some fresh⟩)

/-- Embedding of the token resolution in `Session::from_request`
(src/lib.rs:219-249): with no session cookie, mint a fresh token and
pre-fill the pending slot with it; with a cookie, use its value as the
token and leave the slot empty. Returns (token, pending slot). -/
def resolveToken (cookie : Option String) (fresh : String) :
    String × Option String :=
  match cookie with
  | none => (fresh, some fresh)
  | some c => (c, none)

/-- Embedding of `SessionStoreFairing::on_response` (src/lib.rs:309-322):
if the request's pending-new-token slot holds a token, emit one cookie
whose name is the configured cookie name and whose value is that token;
otherwise emit nothing. Returns the emitted (name, value) pair, if any. -/
def onResponse (name : String) (pending : Option String) :
    Option (String × String) :=
  match pending with
  | some tok => some (name, tok)
  | none => none

/-- Claim C2 counterexample: regeneration that fails at the final store
write still commits a cookie. Session "A" holds value 7; `get` and
`remove` succeed, the slot is filled with the fresh token "B", then `set`
fails — `regenerate_token` returns `Err`, yet the Response Committer
emits the cookie ("session", "B"), refuting "no session cookie is
committed ... the pending-new-token slot is only filled after all four
steps complete". -/
theorem c2_counterexample_set_failure_commits_cookie :
    (regenerateToken ⟨false, false, true⟩ "B" 0 ⟨3600, 0⟩
        (⟨[("A", ⟨(7 : Nat), 100⟩)], "A", none⟩ : SessionState Nat)).1 =
      Except.error SessionError.mk ∧
    onResponse "session"
        (regenerateToken ⟨false, false, true⟩ "B" 0 ⟨3600, 0⟩
          (⟨[("A", ⟨(7 : Nat), 100⟩)], "A", none⟩ : SessionState Nat)).2.newToken =
      some ("session", "B") := by
  constructor <;> rfl

/-- Claim C2 (amended): the pending-new-token slot is filled after `get`
and `remove` but before the write under the new token. Hence a failure at
`get` or `remove` leaves the slot empty and no cookie is committed, while
a failure of the final write happens with the slot already filled, so a
cookie carrying the fresh token is still committed. -/
theorem c2_cookie_commit_on_regen_failure {T : Type} (fb : StoreBehavior)
    (fresh name : String) (now : Nat) (dur : Duration) (s : SessionState T)
    (h0 : s.newToken = none) :
    ((fb.getFails = true ∨ fb.removeFails = true) →
      (regenerateToken fb fresh now dur s).1 = Except.error SessionError.mk ∧
      onResponse name (regenerateToken fb fresh now dur s).2.newToken = none) ∧
    (∀ frame : MemoryStoreFrame T,
      fb.getFails = false → fb.removeFails = false → fb.setFails = true →
      mapLookup s.store s.token = some frame → now ≤ frame.expiry →
      (regenerateToken fb fresh now dur s).1 = Except.error SessionError.mk ∧
      onResponse name (regenerateToken fb fresh now dur s).2.newToken =
        some (name, fresh)) := by
  constructor
  · rintro (hg | hr)
    · simp [regenerateToken, h0, hg, onResponse]
    · rcases hgf : fb.getFails with _ | _
      · rcases hget : MemoryStore.get s.store s.token now with e | o
        · cases e
          simp [regenerateToken, h0, hgf, hget, onResponse]
        · simp [regenerateToken, h0, hgf, hget, hr, onResponse]
      · simp [regenerateToken, h0, hgf, onResponse]
  · intro frame hg hr hs hl he
    simp [regenerateToken, h0, hg, hr, hs, MemoryStore.get, hl, he, onResponse]

/-- Witness for the amended C2 at concrete inputs: a failing `remove`
commits no cookie. -/
theorem c2_cookie_commit_on_regen_failure_witness :
    (regenerateToken ⟨false, true, false⟩ "B" 0 ⟨3600, 0⟩
        (⟨[("A", ⟨(7 : Nat), 100⟩)], "A", none⟩ : SessionState Nat)).1 =
      Except.error SessionError.mk ∧
    onResponse "session"
        (regenerateToken ⟨false, true, false⟩ "B" 0 ⟨3600, 0⟩
          (⟨[("A", ⟨(7 : Nat), 100⟩)], "A", none⟩ : SessionState Nat)).2.newToken =
      none :=
  (c2_cookie_commit_on_regen_failure ⟨false, true, false⟩ "B" "session" 0
    ⟨3600, 0⟩ ⟨[("A", ⟨(7 : Nat), 100⟩)], "A", none⟩ rfl).1 (Or.inr rfl)

/-- Claim C3: for an established session (a live frame under token A, the
pending slot empty) a fully successful regeneration with a fresh token
B ≠ A returns `Ok`, makes B the current token, leaves a direct store
`get` under A absent, and a direct store `get` under B returns the old
value, stored with the full TTL `now + dur`. -/
theorem c3_regeneration_moves_value {T : Type} (fresh : String) (now : Nat)
    (dur : Duration) (s : SessionState T) (frame : MemoryStoreFrame T)
    (h0 : s.newToken = none)
    (hl : mapLookup s.store s.token = some frame)
    (he : now ≤ frame.expiry)
    (hne : fresh ≠ s.token) :
    (regenerateToken ⟨false, false, false⟩ fresh now dur s).1 = Except.ok () ∧
    (regenerateToken ⟨false, false, false⟩ fresh now dur s).2.token = fresh ∧
    (regenerateToken ⟨false, false, false⟩ fresh now dur s).2.token ≠ s.token ∧
    MemoryStore.get (regenerateToken ⟨false, false, false⟩ fresh now dur s).2.store
        s.token now = Except.ok none ∧
    MemoryStore.get (regenerateToken ⟨false, false, false⟩ fresh now dur s).2.store
        fresh now = Except.ok (some frame.value) ∧
    mapLookup (regenerateToken ⟨false, false, false⟩ fresh now dur s).2.store
        fresh = some ⟨frame.value, now + dur.toNanos⟩ := by
  have hstep :
      regenerateToken ⟨false, false, false⟩ fresh now dur s =
        (Except.ok (),
          ⟨mapInsert (mapRemove s.store s.token) fresh
              ⟨frame.value, now + dur.toNanos⟩, fresh, some fresh⟩) := by
    simp [regenerateToken, h0, MemoryStore.get, hl, he]
  have hsne : s.token ≠ fresh := fun hc => hne hc.symm
  refine ⟨by rw [hstep], by rw [hstep], ?_, ?_, ?_, ?_⟩
  · rw [hstep]
    exact hne
  · rw [hstep]
    simp [MemoryStore.get,
      mapLookup_mapInsert_ne (mapRemove s.store s.token) fresh s.token _ hsne,
      mapLookup_mapRemove_self]
  · rw [hstep]
    simp [MemoryStore.get, mapLookup_mapInsert_self, Nat.le_add_right]
  · rw [hstep]
    simp [mapLookup_mapInsert_self]

/-- Witness for C3 at a concrete established session. -/
theorem c3_regeneration_moves_value_witness :
    (regenerateToken ⟨false, false, false⟩ "B" 0 ⟨60, 0⟩
        (⟨[("A", ⟨(7 : Nat), 100⟩)], "A", none⟩ : SessionState Nat)).1 =
      Except.ok () ∧
    (regenerateToken ⟨false, false, false⟩ "B" 0 ⟨60, 0⟩
        (⟨[("A", ⟨(7 : Nat), 100⟩)], "A", none⟩ : SessionState Nat)).2.token = "B" ∧
    (regenerateToken ⟨false, false, false⟩ "B" 0 ⟨60, 0⟩
        (⟨[("A", ⟨(7 : Nat), 100⟩)], "A", none⟩ : SessionState Nat)).2.token ≠ "A" ∧
    MemoryStore.get (regenerateToken ⟨false, false, false⟩ "B" 0 ⟨60, 0⟩
        (⟨[("A", ⟨(7 : Nat), 100⟩)], "A", none⟩ : SessionState Nat)).2.store
        "A" 0 = Except.ok none ∧
    MemoryStore.get (regenerateToken ⟨false, false, false⟩ "B" 0 ⟨60, 0⟩
        (⟨[("A", ⟨(7 : Nat), 100⟩)], "A", none⟩ : SessionState Nat)).2.store
        "B" 0 = Except.ok (some 7) ∧
    mapLookup (regenerateToken ⟨false, false, false⟩ "B" 0 ⟨60, 0⟩
        (⟨[("A", ⟨(7 : Nat), 100⟩)], "A", none⟩ : SessionState Nat)).2.store
        "B" = some ⟨7, 0 + Duration.toNanos ⟨60, 0⟩⟩ :=
  c3_regeneration_moves_value "B" 0 ⟨60, 0⟩
    ⟨[("A", ⟨(7 : Nat), 100⟩)], "A", none⟩ ⟨7, 100⟩ rfl rfl (by decide)
    (by decide)

/-- Claim C4: when regeneration fails after the old entry's removal — the
only such step is the write of the carried-over value under the new
token — the old token's entry has already been removed and is never
re-written: a store lookup under the old token finds nothing, and the
error is returned to the caller. -/
theorem c4_old_token_dead_after_set_failure {T : Type} (fb : StoreBehavior)
    (fresh : String) (now : Nat) (dur : Duration) (s : SessionState T)
    (frame : MemoryStoreFrame T)
    (h0 : s.newToken = none) (hg : fb.getFails = false)
    (hr : fb.removeFails = false) (hs : fb.setFails = true)
    (hl : mapLookup s.store s.token = some frame) (he : now ≤ frame.expiry) :
    (regenerateToken fb fresh now dur s).1 = Except.error SessionError.mk ∧
    mapLookup (regenerateToken fb fresh now dur s).2.store s.token = none := by
  have hstep :
      regenerateToken fb fresh now dur s =
        (Except.error SessionError.mk,
          ⟨mapRemove s.store s.token, fresh, some fresh⟩) := by
    simp [regenerateToken, h0, hg, hr, hs, MemoryStore.get, hl, he]
  rw [hstep]
  exact ⟨rfl, mapLookup_mapRemove_self s.store s.token⟩

/-- Witness for C4 at a concrete session whose new-token write fails. -/
theorem c4_old_token_dead_after_set_failure_witness :
    (regenerateToken ⟨false, false, true⟩ "B" 0 ⟨60, 0⟩
        (⟨[("A", ⟨(7 : Nat), 100⟩)], "A", none⟩ : SessionState Nat)).1 =
      Except.error SessionError.mk ∧
    mapLookup (regenerateToken ⟨false, false, true⟩ "B" 0 ⟨60, 0⟩
        (⟨[("A", ⟨(7 : Nat), 100⟩)], "A", none⟩ : SessionState Nat)).2.store
      "A" = none :=
  c4_old_token_dead_after_set_failure ⟨false, false, true⟩ "B" 0 ⟨60, 0⟩
    ⟨[("A", ⟨(7 : Nat), 100⟩)], "A", none⟩ ⟨7, 100⟩ rfl rfl rfl rfl rfl
    (by decide)

/-- Claim C5: regeneration is idempotent within a request: when the
pending-new-token slot is already filled with `t`, a further call to
`regenerate_token` — with any store behavior, fresh token, instant and
TTL — returns `Ok` and leaves the whole state (store, current token,
slot) unchanged, and the Response Committer emits exactly the one cookie
carrying `t`. -/
theorem c5_regenerate_idempotent {T : Type} (fb : StoreBehavior)
    (fresh name t : String) (now : Nat) (dur : Duration) (s : SessionState T)
    (h : s.newToken = some t) :
    regenerateToken fb fresh now dur s = (Except.ok (), s) ∧
    onResponse name s.newToken = some (name, t) := by
  constructor
  · simp [regenerateToken, h]
  · simp [onResponse, h]

/-- Witness for C5: a second regeneration in the same request is a no-op. -/
theorem c5_regenerate_idempotent_witness :
    regenerateToken ⟨false, false, false⟩ "C" 5 ⟨60, 0⟩
        (⟨[("B", ⟨(7 : Nat), 100⟩)], "B", some "B"⟩ : SessionState Nat) =
      (Except.ok (), ⟨[("B", ⟨(7 : Nat), 100⟩)], "B", some "B"⟩) ∧
    onResponse "session"
        (SessionState.newToken
          (⟨[("B", ⟨(7 : Nat), 100⟩)], "B", some "B"⟩ : SessionState Nat)) =
      some ("session", "B") :=
  c5_regenerate_idempotent ⟨false, false, false⟩ "C" "session" "B" 5 ⟨60, 0⟩
    ⟨[("B", ⟨(7 : Nat), 100⟩)], "B", some "B"⟩ rfl

/-- Claim C6: the Response Committer emits a cookie exactly when the
pending-new-token slot is filled, and the emitted cookie carries the
configured name and the pending token. A request that arrives with a
session cookie and never regenerates has an empty slot (by token
resolution) and emits no cookie; a request with no cookie starts with the
slot pre-filled with the freshly minted token. -/
theorem c6_cookie_iff_pending_slot (name c fresh tok : String) :
    onResponse name none = none ∧
    onResponse name (some tok) = some (name, tok) ∧
    resolveToken (some c) fresh = (c, none) ∧
    onResponse name (resolveToken (some c) fresh).2 = none ∧
    resolveToken none fresh = (fresh, some fresh) ∧
    onResponse name (resolveToken none fresh).2 = some (name, fresh) :=
  ⟨rfl, rfl, rfl, rfl, rfl, rfl⟩

/-- Embedding of the `redis::Value` reply shapes that `RedisStore::get`
(src/redis.rs:107-119) distinguishes: `Nil`, `Data(bytes)` and every
other shape collapsed into one constructor, as the source's `_` arm does. -/
inductive RedisValue where
  | nil
  | data (bytes : List Nat)
  | other
  deriving DecidableEq, Repr

/-- Observable outcome of `RedisStore::get`: a normal return
(`Ok(Some v)` or `Ok(None)`), an `Err(SessionError)`, or a panic — the
source's `.expect("Failed to deserialize")` aborts instead of returning. -/
inductive RedisGetOutcome (T : Type) where
  | ok (v : Option T)
  | err
  | panicked
  deriving DecidableEq, Repr

/-- Embedding of `RedisStore::get` (src/redis.rs:107-119). `deser` embeds
`serde_json::from_slice` for the value type (`none` = deserialization
failure); `connFails` injects a `get_connection` failure and `reply` the
result of `req_command`. A `Nil` reply yields `Ok(None)`; a `Data` reply
is deserialized, where failure hits `.expect` and panics; any other reply
yields `Ok(None)`. -/
def redisGet {T : Type} (deser : List Nat → Option T) (connFails : Bool)
    (reply : SessionResult RedisValue) : RedisGetOutcome T :=
  if connFails then RedisGetOutcome.err
  else
    match reply with
    | Except.error _ => RedisGetOutcome.err
    | Except.ok v =>
      match v with
      | RedisValue.nil => RedisGetOutcome.ok none
      | RedisValue.data bytes =>
        match deser bytes with
        | some t => RedisGetOutcome.ok (some t)
        | none => RedisGetOutcome.panicked
      | RedisValue.other => RedisGetOutcome.ok none

/-- Embedding of the command built by `RedisStore::set`
(src/redis.rs:121-133): `SET key serialized EX duration.as_secs()`. -/
def redisSetArgs (key serialized : String) (dur : Duration) : List String :=
  ["SET", key, serialized, "EX", toString dur.asSecs]

/-- Embedding of the command built by `RedisStore::touch`
(src/redis.rs:135-144): `EXPIRE key duration.as_secs()`. -/
def redisTouchArgs (key : String) (dur : Duration) : List String :=
  ["EXPIRE", key, toString dur.asSecs]

/-- Claim C1: contrary to the claim, `RedisStore::get` does not return
`SessionError` on a stored byte payload that fails to deserialize: the
source's `from_slice(bytes).expect("Failed to deserialize")` panics, so
`get` can crash. For every deserializer and byte payload on which
deserialization fails, a successful fetch of that payload ends in the
panic outcome, not `err`. -/
theorem c1_redis_get_deser_failure_panics {T : Type}
    (deser : List Nat → Option T) (bytes : List Nat)
    (h : deser bytes = none) :
    redisGet deser false (Except.ok (RedisValue.data bytes)) =
      RedisGetOutcome.panicked ∧
    redisGet deser false (Except.ok (RedisValue.data bytes)) ≠
      (RedisGetOutcome.err : RedisGetOutcome T) := by
  constructor
  · simp [redisGet, h]
  · simp [redisGet, h]

/-- Witness for C1: fetching the single byte 64 (`@`, invalid JSON for
any value type) with a deserializer that rejects it panics. -/
theorem c1_redis_get_deser_failure_panics_witness :
    redisGet (fun _ => (none : Option Nat)) false
        (Except.ok (RedisValue.data [64])) = RedisGetOutcome.panicked ∧
    redisGet (fun _ => (none : Option Nat)) false
        (Except.ok (RedisValue.data [64])) ≠
      (RedisGetOutcome.err : RedisGetOutcome Nat) :=
  c1_redis_get_deser_failure_panics (fun _ => none) [64] rfl

/-- Claim C10: both `RedisStore::set` and `RedisStore::touch` send the
TTL as `duration.as_secs()`, the whole-second count with the sub-second
part truncated away: under the `Duration` invariant `nanos < 10^9` the
seconds argument equals `toNanos / 10^9`, and any duration strictly below
one second is sent as `0` seconds. -/
theorem c10_redis_ttl_truncates_to_secs (key serialized : String)
    (d : Duration) (h : d.nanos < 1000000000) :
    redisSetArgs key serialized d =
      ["SET", key, serialized, "EX", toString (d.toNanos / 1000000000)] ∧
    redisTouchArgs key d =
      ["EXPIRE", key, toString (d.toNanos / 1000000000)] ∧
    (d.toNanos < 1000000000 →
      redisSetArgs key serialized d = ["SET", key, serialized, "EX", "0"] ∧
      redisTouchArgs key d = ["EXPIRE", key, "0"]) := by
  have hsecs : d.toNanos / 1000000000 = d.secs := by
    have hpos : 0 < 1000000000 := by decide
    calc d.toNanos / 1000000000
        = (1000000000 * d.secs + d.nanos) / 1000000000 := by
          rw [Duration.toNanos, Nat.mul_comm]
      _ = d.secs + d.nanos / 1000000000 := Nat.mul_add_div hpos d.secs d.nanos
      _ = d.secs + 0 := by rw [Nat.div_eq_of_lt h]
      _ = d.secs := Nat.add_zero d.secs
  have hzero : d.toNanos < 1000000000 → d.asSecs = 0 := by
    intro hlt
    rcases Nat.eq_zero_or_pos d.secs with hz | hpos
    · exact hz
    · exfalso
      have : 1000000000 ≤ d.secs * 1000000000 :=
        Nat.le_mul_of_pos_left 1000000000 hpos
      have : 1000000000 ≤ d.toNanos :=
        le_trans this (Nat.le_add_right _ d.nanos)
      exact absurd hlt (Nat.not_lt_of_le this)
  refine ⟨?_, ?_, ?_⟩
  · simp [redisSetArgs, Duration.asSecs, hsecs]
  · simp [redisTouchArgs, Duration.asSecs, hsecs]
  · intro hlt
    constructor
    · simp only [redisSetArgs, hzero hlt]
      rfl
    · simp only [redisTouchArgs, hzero hlt]
      rfl

/-- Witness for C10 at the concrete sub-second duration 0.9s. -/
theorem c10_redis_ttl_truncates_to_secs_witness :
    redisSetArgs "user:tok" "7" ⟨0, 900000000⟩ =
      ["SET", "user:tok", "7", "EX",
        toString (Duration.toNanos ⟨0, 900000000⟩ / 1000000000)] ∧
    redisTouchArgs "user:tok" ⟨0, 900000000⟩ =
      ["EXPIRE", "user:tok",
        toString (Duration.toNanos ⟨0, 900000000⟩ / 1000000000)] ∧
    (Duration.toNanos ⟨0, 900000000⟩ < 1000000000 →
      redisSetArgs "user:tok" "7" ⟨0, 900000000⟩ =
        ["SET", "user:tok", "7", "EX", "0"] ∧
      redisTouchArgs "user:tok" ⟨0, 900000000⟩ = ["EXPIRE", "user:tok", "0"]) :=
  c10_redis_ttl_truncates_to_secs "user:tok" "7" ⟨0, 900000000⟩ (by decide)
